import Mathlib

/-!
Verification of the pupil-diameter filtering and calibration pipeline.

The development shallowly embeds the repository's data model and
operations:

* `Sample` / `prepare_data` / `set_data` — the sample table container
  (`filtered_data.py`): per-row measurement fields, the validity flag,
  and the recomputation of `relative_timestamp` from the currently
  valid rows.
* the filter passes of `raw_data_filter.py` (and the checkpoint
  variants where they differ): each pass computes a boolean mask from
  the raw columns, clears `is_valid` on masked rows, and re-triggers
  `set_data`.
* the checkpoint container (`filtered_data-checkpoint.py`) with the
  windowed standard deviation and smoothing, including its slice
  semantics: the valid-row slice used for the windowed standard
  deviation is taken before `relative_timestamp` and
  `avg_pupildiameter` are (re)computed, so it carries the values the
  table had on entry.
* the calibration metric extractor (`calibration_processor.py`) and the
  calibration record (`calibration_data-checkpoint.py`).

Missing values (pandas `NaN`) are modelled as `Option ℚ` with the
`NaN`-propagation rules pandas uses: any comparison against a missing
value is false, and arithmetic with a missing operand is missing.
-/

set_option maxRecDepth 100000

/-! ### Missing-value (NaN) arithmetic -/

/-- `a - b` with NaN propagation. -/
def optSub : Option ℚ → Option ℚ → Option ℚ
  | some a, some b => some (a - b)
  | _, _ => none

/-- `a * b` with NaN propagation. -/
def optMul : Option ℚ → Option ℚ → Option ℚ
  | some a, some b => some (a * b)
  | _, _ => none

/-- `|a|` with NaN propagation. -/
def optAbs : Option ℚ → Option ℚ
  | some a => some |a|
  | none => none

/-- `a < b` as pandas evaluates it: false when `a` is missing. -/
def oLt (a : Option ℚ) (b : ℚ) : Bool :=
  match a with
  | some x => decide (x < b)
  | none => false

/-- `a > b` as pandas evaluates it: false when `a` is missing. -/
def oGt (a : Option ℚ) (b : ℚ) : Bool :=
  match a with
  | some x => decide (b < x)
  | none => false

/-! ### The sample table (`FilteredData`, `filtered_data.py`) -/

/-- One row of the sample table.  `etype` is the `type` column;
`left`/`right` are `eyeleft.pupildiameter` / `eyeright.pupildiameter`.
The four derived columns follow.  `std_pupildiameter` stores the
square of the source's `np.std(·, ddof=1)` value (the sample
variance), since the standard deviation itself is irrational in
general; definedness and equality of windows are unaffected by the
final square root. -/
structure Sample where
  timestamp : Option ℚ
  etype : String
  left : Option ℚ
  right : Option ℚ
  is_valid : Bool
  relative_timestamp : Option ℚ
  avg_pupildiameter : Option ℚ
  std_pupildiameter : Option ℚ
  avg_pupildiameter_smooth : Option ℚ
deriving DecidableEq, Repr

/-- `self._start_timestamp`: minimum `timestamp` over the currently
valid rows (pandas `min` skips missing values), `None` when no row is
valid. -/
def session_start (rows : List Sample) : Option ℚ :=
  if (rows.filter (·.is_valid)).isEmpty then none
  else ((rows.filter (·.is_valid)).filterMap (·.timestamp)).min?

/-- The per-row effect of `_prepare_data` in the main
`filtered_data.py`: `relative_timestamp` is reset and then filled only
on valid rows with `timestamp - start`. -/
def relAssign (st : Option ℚ) (s : Sample) : Sample :=
  { s with relative_timestamp := if s.is_valid then optSub s.timestamp st else none }

/-- `FilteredData._prepare_data` (main `filtered_data.py`): the only
calculated field is `relative_timestamp`; it is reset to NaN on every
row and recomputed for valid rows from the current validity
partition. -/
def prepare_data (rows : List Sample) : List Sample :=
  rows.map (relAssign (session_start rows))

/-- `FilteredData.set_data`: copy the new table and re-run
`_prepare_data`. -/
def set_data (rows : List Sample) : List Sample :=
  prepare_data rows

/-! ### Filter passes (`RawDataFilter`, `raw_data_filter.py`)

Each pass computes a boolean mask from the raw columns of the current
table, sets `is_valid` to `False` on masked rows, and calls
`set_data`.  The masks are expressed as predicates on the raw columns
(`Cols`) so that the way each mask reads only raw data is explicit in
the definition. -/

/-- Positional map carrying the row index, used to model the pandas
row-wise mask application. -/
def idxMapFrom (f : ℕ → Sample → Sample) (k : ℕ) : List Sample → List Sample
  | [] => []
  | x :: xs => f k x :: idxMapFrom f (k + 1) xs

/-- The raw columns of the table: `timestamp`, `type`,
`eyeleft.pupildiameter`, `eyeright.pupildiameter`. -/
structure Cols where
  ts : List (Option ℚ)
  ty : List String
  lft : List (Option ℚ)
  rgt : List (Option ℚ)

def colsOf (rows : List Sample) : Cols :=
  ⟨rows.map (·.timestamp), rows.map (·.etype),
   rows.map (·.left), rows.map (·.right)⟩

/-- Entry `i` of a raw numeric column (missing when the row does not
exist or holds NaN). -/
def entry (l : List (Option ℚ)) (i : ℕ) : Option ℚ :=
  (l[i]?).join

/-- `column.diff()` at row `i`: NaN on row 0 and when either operand
is missing. -/
def colDiff (l : List (Option ℚ)) (i : ℕ) : Option ℚ :=
  match i with
  | 0 => none
  | j + 1 => optSub (entry l (j + 1)) (entry l j)

/-- Apply a mask: rows where the mask holds get `is_valid := False`,
all other fields are untouched (`df.loc[mask, 'is_valid'] = False`). -/
def applyMask (cond : Cols → ℕ → Bool) (rows : List Sample) : List Sample :=
  let cols := colsOf rows
  idxMapFrom (fun i s => if cond cols i then { s with is_valid := false } else s) 0 rows

/-- A full filter pass: mask application followed by `set_data`. -/
def runFilter (cond : Cols → ℕ → Bool) (rows : List Sample) : List Sample :=
  set_data (applyMask cond rows)

/-- `filter_only_gaze`: mask `df['type'] != 'gaze'`. -/
def onlyGazeCond (c : Cols) (i : ℕ) : Bool :=
  match c.ty[i]? with
  | some t => decide (t ≠ "gaze")
  | none => false

def filter_only_gaze : List Sample → List Sample :=
  runFilter onlyGazeCond

/-- `filter_invalid_pupils`: either eye outside `[min_size, max_size]`
(NaN compares false). -/
def invalidPupilsCond (minSize maxSize : ℚ) (c : Cols) (i : ℕ) : Bool :=
  oLt (entry c.lft i) minSize || oGt (entry c.lft i) maxSize ||
  oLt (entry c.rgt i) minSize || oGt (entry c.rgt i) maxSize

def filter_invalid_pupils (minSize maxSize : ℚ) : List Sample → List Sample :=
  runFilter (invalidPupilsCond minSize maxSize)

/-- `filter_missing_data`: a null in either eye or in `timestamp`. -/
def missingCond (c : Cols) (i : ℕ) : Bool :=
  match c.lft[i]?, c.rgt[i]?, c.ts[i]? with
  | some a, some b, some t => a.isNone || b.isNone || t.isNone
  | _, _, _ => false

def filter_missing_data : List Sample → List Sample :=
  runFilter missingCond

/-- `filter_by_timestamp`: `timestamp` below the floor or above the
wall-clock time at filter-run time (passed in as `curT`). -/
def byTimestampCond (minT curT : ℚ) (c : Cols) (i : ℕ) : Bool :=
  oLt (entry c.ts i) minT || oGt (entry c.ts i) curT

def filter_by_timestamp (minT curT : ℚ) : List Sample → List Sample :=
  runFilter (byTimestampCond minT curT)

/-- `filter_unrealistic_event_spacing` (main `raw_data_filter.py`):
mask `df['timestamp'].diff() < min_interval` — only the row where the
(backward) difference is small is masked. -/
def spacingCond (minInterval : ℚ) (c : Cols) (i : ℕ) : Bool :=
  oLt (colDiff c.ts i) minInterval

def filter_unrealistic_event_spacing (minInterval : ℚ) : List Sample → List Sample :=
  runFilter (spacingCond minInterval)

/-- `filter_unrealistic_event_spacing` (checkpoint variant): the rows
with a small backward difference and the rows directly before them are
masked (`df.loc[bad_indexes]` and `df.loc[bad_indexes - 1]`). -/
def spacingCkptCond (minInterval : ℚ) (c : Cols) (i : ℕ) : Bool :=
  spacingCond minInterval c i || spacingCond minInterval c (i + 1)

def filter_unrealistic_event_spacing_ckpt (minInterval : ℚ) : List Sample → List Sample :=
  runFilter (spacingCkptCond minInterval)

/-- One step of `filter_constant_pupil`'s stability series: both eyes'
step-to-step change stays below `tolerance` (row 0's diff is NaN, so
it is never stable). -/
def stableAt (tol : ℚ) (c : Cols) (i : ℕ) : Bool :=
  oLt (optAbs (colDiff c.lft i)) tol && oLt (optAbs (colDiff c.rgt i)) tol

def stableList (tol : ℚ) (c : Cols) : List Bool :=
  (List.range c.ts.length).map (stableAt tol c)

/-- Run-length encoding of a boolean series (the
`groupby((stable != stable.shift()).cumsum())` grouping). -/
def runsOf : List Bool → List (Bool × ℕ)
  | [] => []
  | b :: rest =>
    match runsOf rest with
    | [] => [(b, 1)]
    | (c, k) :: rs => if b = c then (c, k + 1) :: rs else (b, 1) :: (c, k) :: rs

/-- `transform('size')`: every position receives the length of its
maximal run. -/
def streakList (l : List Bool) : List ℕ :=
  (runsOf l).flatMap fun p => List.replicate p.2 p.2

/-- `filter_constant_pupil`: stable rows inside a run of at least
`max_static_steps` stable rows. -/
def constantCond (maxSteps : ℕ) (tol : ℚ) (c : Cols) (i : ℕ) : Bool :=
  (stableList tol c)[i]?.getD false &&
  decide (maxSteps ≤ ((streakList (stableList tol c))[i]?.getD 0))

def filter_constant_pupil (maxSteps : ℕ) (tol : ℚ) : List Sample → List Sample :=
  runFilter (constantCond maxSteps tol)

/-- `filter_async_pupil_size`: the eyes move in opposite directions
and both changes exceed the tolerance. -/
def asyncCond (tol : ℚ) (c : Cols) (i : ℕ) : Bool :=
  oLt (optMul (colDiff c.lft i) (colDiff c.rgt i)) 0 &&
  oGt (optAbs (colDiff c.lft i)) tol &&
  oGt (optAbs (colDiff c.rgt i)) tol

def filter_async_pupil_size (tol : ℚ) : List Sample → List Sample :=
  runFilter (asyncCond tol)

/-! ### The checkpoint container (`filtered_data-checkpoint.py`)

The checkpoint `_prepare_data` also computes `avg_pupildiameter`, the
windowed standard deviation and the smoothed average.  Its
`_reset_calculated_fields` only creates missing columns (it never
overwrites), and the valid-row slice `valid_data` used for the
windowed standard deviation is taken before `relative_timestamp` and
`avg_pupildiameter` are recomputed, so that computation sees the
values the table had on entry. -/

/-- `(left + right) / 2`, NaN when either eye is missing. -/
def avgOf (s : Sample) : Option ℚ :=
  match s.left, s.right with
  | some a, some b => some ((a + b) / 2)
  | _, _ => none

/-- Closed-window membership test: false when the centre or the point
is missing. -/
def inWin (half : ℚ) (center x : Option ℚ) : Bool :=
  match center, x with
  | some c, some t => decide (c - half ≤ t) && decide (t ≤ c + half)
  | _, _ => false

/-- Sample variance with one degree of freedom — the square of
`np.std(vals, ddof=1)`. -/
def sampleVariance (vals : List ℚ) : ℚ :=
  let n : ℚ := vals.length
  let m := vals.sum / n
  (vals.map (fun x => (x - m) ^ 2)).sum / (n - 1)

/-- The list of windowed standard-deviation values computed over the
valid-row slice: for each slice row, all slice rows whose (slice)
relative timestamp is within ±0.5 s; NaN when fewer than two rows fall
in the window or when the window contains a NaN average
(`np.std` over an array with NaN is NaN). -/
def stdListOf (snapTs snapAvg : List (Option ℚ)) : List (Option ℚ) :=
  snapTs.map fun c =>
    let win := ((snapTs.zip snapAvg).filter (fun p => inWin (1/2) c p.1)).map (·.2)
    if 2 ≤ win.length then
      if win.all (·.isSome) then some (sampleVariance (win.filterMap id)) else none
    else none

/-- Write the per-valid-row standard deviations back into the table
(`df.loc[df['is_valid'] == True, 'std_pupildiameter'] = std_pupil_list`). -/
def fillStd : List Sample → List (Option ℚ) → List Sample
  | [], _ => []
  | s :: rest, vals =>
    if s.is_valid then
      match vals with
      | [] => { s with std_pupildiameter := none } :: fillStd rest []
      | v :: vs => { s with std_pupildiameter := v } :: fillStd rest vs
    else s :: fillStd rest vals

/-- Write the per-valid-row smoothed values back into the table. -/
def fillSmooth : List Sample → List (Option ℚ) → List Sample
  | [], _ => []
  | s :: rest, vals =>
    if s.is_valid then
      match vals with
      | [] => { s with avg_pupildiameter_smooth := none } :: fillSmooth rest []
      | v :: vs => { s with avg_pupildiameter_smooth := v } :: fillSmooth rest vs
    else s :: fillSmooth rest vals

/-- `x < y` on absolute timestamps for `sort_values('timestamp')`;
NaN sorts last. -/
def tsLt (x y : Sample) : Bool :=
  match x.timestamp, y.timestamp with
  | some a, some b => decide (a < b)
  | some _, none => true
  | none, _ => false

/-- Stable insertion used by `sortByTs`. -/
def insertByTs (s : Sample) : List Sample → List Sample
  | [] => [s]
  | t :: ts => if tsLt t s then t :: insertByTs s ts else s :: t :: ts

/-- `sort_values('timestamp').reset_index(drop=True)` (stable on
already-sorted input; determinized as a stable sort). -/
def sortByTs : List Sample → List Sample
  | [] => []
  | x :: xs => insertByTs x (sortByTs xs)

/-- The smoothed values over the valid subsequence: for each valid row
the mean of `avg_pupildiameter` over the valid rows within ±`w`
seconds of its absolute timestamp; a row whose window is empty (only
possible when its own timestamp is NaN) falls back to its own
average, and a window containing a NaN average yields NaN
(`np.mean`). -/
def smoothVals (w : ℚ) (tsV avgV : List (Option ℚ)) : List (Option ℚ) :=
  (List.range tsV.length).map fun i =>
    let t := (tsV[i]?).join
    let win := ((tsV.zip avgV).filter (fun p => inWin w t p.1)).map (·.2)
    if win.isEmpty then (avgV[i]?).join
    else if win.all (·.isSome) then
      some ((win.filterMap id).sum / ((win.filterMap id).length : ℚ))
    else none

/-- `FilteredData._prepare_data` of the checkpoint container, with
`time_window_smooth = 0.3`.  The slice `snap` is taken before
`relative_timestamp` and `avg_pupildiameter` are recomputed, exactly
as in the source, so the windowed standard deviation is evaluated on
the entry values of those columns. -/
def prepare_data_ckpt (rows0 : List Sample) : List Sample :=
  let snap := rows0.filter (·.is_valid)
  let rows1 :=
    if snap.isEmpty then rows0
    else
      let st := (snap.filterMap (·.timestamp)).min?
      rows0.map fun s =>
        if s.is_valid then { s with relative_timestamp := optSub s.timestamp st } else s
  let rows2 := rows1.map fun s => { s with avg_pupildiameter := avgOf s }
  let rows3 :=
    if snap.isEmpty then rows2.map fun s => { s with std_pupildiameter := none }
    else fillStd rows2 (stdListOf (snap.map (·.relative_timestamp)) (snap.map (·.avg_pupildiameter)))
  let rowsS := sortByTs rows3
  let tsV := (rowsS.filter (·.is_valid)).map (·.timestamp)
  let avgV := (rowsS.filter (·.is_valid)).map (·.avg_pupildiameter)
  fillSmooth (rowsS.map fun s => { s with avg_pupildiameter_smooth := none })
    (smoothVals (3/10) tsV avgV)

/-- `set_data` of the checkpoint container. -/
def set_data_ckpt (rows : List Sample) : List Sample :=
  prepare_data_ckpt rows

/-- The speed test of one consecutive valid pair in
`filter_pupil_speed`: skipped unless the elapsed relative time is
positive, and NaN speeds compare false. -/
def speedPairBad (maxSpeed : ℚ) (p q : Sample) : Bool :=
  match optSub q.relative_timestamp p.relative_timestamp with
  | some dt =>
    if 0 < dt then
      match optAbs (optSub q.avg_pupildiameter p.avg_pupildiameter) with
      | some dp => decide (maxSpeed < dp / dt)
      | none => false
    else false
  | none => false

/-- `filter_pupil_speed` (checkpoint `raw_data_filter.py`): walk the
snapshot of currently-valid rows in order; every consecutive pair that
fails the speed test has both of its rows invalidated in the original
table; then `set_data` re-runs the checkpoint recomputation. -/
def filter_pupil_speed (maxSpeed : ℚ) (rows : List Sample) : List Sample :=
  let snap := (rows.enum).filter (fun p => p.2.is_valid)
  let bad : List ℕ :=
    (snap.zip snap.tail).flatMap fun pq =>
      if speedPairBad maxSpeed pq.1.2 pq.2.2 then [pq.1.1, pq.2.1] else []
  set_data_ckpt <| (rows.enum).map fun p =>
    if p.1 ∈ bad then { p.2 with is_valid := false } else p.2

/-! ### Phase metric extraction (`calibration_processor.py`)

Phase maps are association lists `phase name → (start, end)` as
produced by `load_time_ranges`.  Errors are modelled structurally:
`keyErr k` is the Python `KeyError` raised by `time_ranges[k]`,
`emptySeg phase t0 t1` is the `ValueError` with message
`"No valid data in <phase> [t0, t1]"`, and `allNaN` is the
`ValueError` that `idxmax` raises on an all-NaN series. -/

abbrev TimeRanges := List (String × ℚ × ℚ)

inductive CalibErr where
  | keyErr (key : String)
  | emptySeg (phase : String) (t0 t1 : ℚ)
  | allNaN
deriving DecidableEq, Repr

instance {ε α : Type} [DecidableEq ε] [DecidableEq α] : DecidableEq (Except ε α) := fun a b =>
  match a, b with
  | .ok x, .ok y =>
    if h : x = y then isTrue (by rw [h]) else isFalse (by intro hc; cases hc; exact h rfl)
  | .error x, .error y =>
    if h : x = y then isTrue (by rw [h]) else isFalse (by intro hc; cases hc; exact h rfl)
  | .ok _, .error _ => isFalse (by intro hc; cases hc)
  | .error _, .ok _ => isFalse (by intro hc; cases hc)

/-- `time_ranges[key]`, raising `KeyError` when absent. -/
def lookupRange (tr : TimeRanges) (key : String) : Except CalibErr (ℚ × ℚ) :=
  match tr.lookup key with
  | some r => .ok r
  | none => .error (.keyErr key)

/-- The phase segment: valid rows whose `relative_timestamp` lies in
the closed window `[t0, t1]` (NaN relative timestamps never match). -/
def calibSeg (rows : List Sample) (t0 t1 : ℚ) : List Sample :=
  rows.filter fun s =>
    s.is_valid &&
      (match s.relative_timestamp with
       | some t => decide (t0 ≤ t) && decide (t ≤ t1)
       | none => false)

/-- `idxmax` over `avg_pupildiameter_smooth` followed by reading the
peak row: the first row attaining the maximum smoothed value among
rows where it is defined, returned as (relative time, value). -/
def peakOf (seg : List Sample) : Option (ℚ × ℚ) :=
  seg.foldl
    (fun acc s =>
      match s.avg_pupildiameter_smooth, s.relative_timestamp with
      | some v, some t =>
        match acc with
        | none => some (t, v)
        | some (tb, vb) => if vb < v then some (t, v) else acc
      | _, _ => acc)
    none

/-- `idxmax` over `relative_timestamp` followed by reading that row:
the first row attaining the maximal relative time in the segment. -/
def lastTimeRow (seg : List Sample) : Option Sample :=
  seg.foldl
    (fun acc s =>
      match s.relative_timestamp with
      | some t =>
        match acc with
        | none => some s
        | some b =>
          match b.relative_timestamp with
          | some tb => if tb < t then some s else acc
          | none => some s
      | none => acc)
    none

/-- The mean of a pandas numeric series: NaN entries are skipped, and
the mean of an all-NaN series is NaN. -/
def seriesMean (vals : List (Option ℚ)) : Option ℚ :=
  let def_ := vals.filterMap id
  if def_.isEmpty then none else some (def_.sum / (def_.length : ℚ))

/-- `CalibrationProcessor.compute_negative_mean_ratio`.  Note: the
source reads `time_ranges['Positive']` here, while its name and error
message say "negative". -/
def compute_negative_mean_ratio (rows : List Sample) (tr : TimeRanges)
    (baseline_mean : ℚ) : Except CalibErr (Option ℚ) := do
  let (t0, t1) ← lookupRange tr "Positive"
  let seg := calibSeg rows t0 t1
  if seg.isEmpty then throw (.emptySeg "negative" t0 t1)
  else
    pure ((seriesMean (seg.map (·.avg_pupildiameter_smooth))).map (· / baseline_mean))

/-- `CalibrationProcessor.compute_negative_rise_speed`.  Note: the
source looks up `time_ranges['negative']` with a lowercase key. -/
def compute_negative_rise_speed (rows : List Sample) (tr : TimeRanges)
    (baseline_mean : ℚ) : Except CalibErr (Option ℚ) := do
  let (t0, t1) ← lookupRange tr "negative"
  let seg := calibSeg rows t0 t1
  if seg.isEmpty then throw (.emptySeg "negative" t0 t1)
  else
    match peakOf seg with
    | none => throw .allNaN
    | some (tPeak, valPeak) => pure (some ((valPeak - baseline_mean) / (tPeak - t0)))

/-- The numerator (possibly NaN) and denominator of the final division
in `compute_positive_fall_speed`: `(val_peak - val_end, t_end - t_peak)`
with `t_end = t1`. -/
def positive_fall_parts (rows : List Sample) (tr : TimeRanges) :
    Except CalibErr (Option ℚ × ℚ) := do
  let (t0, t1) ← lookupRange tr "Positive"
  let seg := calibSeg rows t0 t1
  if seg.isEmpty then throw (.emptySeg "positive" t0 t1)
  else
    match peakOf seg with
    | none => throw .allNaN
    | some (tPeak, valPeak) =>
      match lastTimeRow seg with
      | none => throw .allNaN
      | some endRow =>
        pure ((endRow.avg_pupildiameter_smooth).map (fun valEnd => valPeak - valEnd), t1 - tPeak)

/-- `CalibrationProcessor.compute_positive_fall_speed`: the division
`(val_peak - val_end) / (t_end - t_peak)` is performed with no check
on the denominator (the `baseline_mean` parameter is unused, as in the
source). -/
def compute_positive_fall_speed (rows : List Sample) (tr : TimeRanges)
    (baseline_mean : ℚ) : Except CalibErr (Option ℚ) :=
  (positive_fall_parts rows tr).map fun p => p.1.map (· / p.2)

/-- Modelled from the spec: «Mean ratio (per stimulus phase): mean of
`smoothed_avg_diameter` over the phase window, divided by baseline
mean», for the Negative phase — the comparison point for the
copy-paste mismatch in `compute_negative_mean_ratio`. -/
def negative_mean_ratio_spec (rows : List Sample) (tr : TimeRanges)
    (baseline_mean : ℚ) : Option ℚ := do
  let (t0, t1) ← tr.lookup "Negative"
  let m ← seriesMean ((calibSeg rows t0 t1).map (·.avg_pupildiameter_smooth))
  some (m / baseline_mean)

/-- Modelled from the spec: «Rise speed: locate the row of maximum
`smoothed_avg_diameter` within the phase window; speed = (peak value −
baseline mean) / (peak time − phase start)», for the Negative phase —
the comparison point for the case mismatch in
`compute_negative_rise_speed`. -/
def negative_rise_speed_spec (rows : List Sample) (tr : TimeRanges)
    (baseline_mean : ℚ) : Option ℚ := do
  let (t0, _t1) ← tr.lookup "Negative"
  let (tPeak, valPeak) ← peakOf (calibSeg rows t0 _t1)
  some ((valPeak - baseline_mean) / (tPeak - t0))

/-! ### The calibration record (`calibration_data-checkpoint.py`) -/

inductive JsonVal where
  | jint (n : ℤ)
  | jnum (q : ℚ)
deriving DecidableEq, Repr

structure CalibrationData where
  user_id : ℤ
  baseline_mean : ℚ
  baseline_std : ℚ
  positive_rise_speed : ℚ
  negative_rise_speed : ℚ
  positive_fall_speed : ℚ
  negative_fall_speed : ℚ
  neutral2_recovery_speed : ℚ
  positive_mean_ratio : ℚ
  negative_mean_ratio : ℚ
deriving DecidableEq, Repr

/-- `CalibrationData.to_dict`. -/
def to_dict (c : CalibrationData) : List (String × JsonVal) :=
  [("user_id", .jint c.user_id),
   ("baseline_mean", .jnum c.baseline_mean),
   ("baseline_std", .jnum c.baseline_std),
   ("positive_rise_speed", .jnum c.positive_rise_speed),
   ("negative_rise_speed", .jnum c.negative_rise_speed),
   ("positive_fall_speed", .jnum c.positive_fall_speed),
   ("negative_fall_speed", .jnum c.negative_fall_speed),
   ("neutral2_recovery_speed", .jnum c.neutral2_recovery_speed),
   ("positive_mean_ratio", .jnum c.positive_mean_ratio),
   ("negative_mean_ratio", .jnum c.negative_mean_ratio)]

/-- `CalibrationData.save`: `json.dump(self.to_dict(), f)` — the file
boundary is abstracted as the serialized key→value record itself. -/
def save (c : CalibrationData) : List (String × JsonVal) :=
  to_dict c

/-- `data[key]` expecting a number. -/
def getNum (d : List (String × JsonVal)) (key : String) : Except String ℚ :=
  match d.lookup key with
  | some (.jnum q) => .ok q
  | some (.jint n) => .ok (n : ℚ)
  | none => .error key

/-- `data[key]` expecting an integer. -/
def getInt (d : List (String × JsonVal)) (key : String) : Except String ℤ :=
  match d.lookup key with
  | some (.jint n) => .ok n
  | some (.jnum _) => .error key
  | none => .error key

/-- `CalibrationData.load`: rebuild the record from the serialized
key→value record, failing on a missing key (`KeyError`). -/
def load (d : List (String × JsonVal)) : Except String CalibrationData := do
  let ui ← getInt d "user_id"
  let bm ← getNum d "baseline_mean"
  let bs ← getNum d "baseline_std"
  let prs ← getNum d "positive_rise_speed"
  let nrs ← getNum d "negative_rise_speed"
  let pfs ← getNum d "positive_fall_speed"
  let nfs ← getNum d "negative_fall_speed"
  let n2r ← getNum d "neutral2_recovery_speed"
  let pmr ← getNum d "positive_mean_ratio"
  let nmr ← getNum d "negative_mean_ratio"
  pure ⟨ui, bm, bs, prs, nrs, pfs, nfs, n2r, pmr, nmr⟩

/-- The nine scalar fields named in the spec's data model (§3). -/
def nine_field_names : List String :=
  ["baseline_mean", "baseline_std", "positive_rise_speed", "negative_rise_speed",
   "positive_fall_speed", "negative_fall_speed", "neutral2_recovery_speed",
   "positive_mean_ratio", "negative_mean_ratio"]

/-- Modelled from the spec: «`std_diameter`: for each valid row *i*,
the sample standard deviation (degrees of freedom = 1) of
`avg_diameter` over all valid rows whose `relative_timestamp` falls
within `[t_i − 0.5s, t_i + 0.5s]`; undefined if fewer than 2 rows fall
in the window» — squared (the sample variance), since the standard
deviation itself is irrational in general; definedness and windows
are unaffected by the final square root. -/
def std_window_spec (rows : List Sample) (i : ℕ) : Option ℚ :=
  match rows[i]? with
  | none => none
  | some s =>
    if s.is_valid then
      match s.relative_timestamp with
      | some t =>
        let vals := rows.filterMap fun r =>
          if r.is_valid then
            match r.relative_timestamp, r.avg_pupildiameter with
            | some u, some a => if t - 1/2 ≤ u ∧ u ≤ t + 1/2 then some a else none
            | _, _ => none
          else none
        if 2 ≤ vals.length then some (sampleVariance vals) else none
      | none => none
    else none

/-! ### Structural lemmas about the table and the filter passes -/

theorem relAssign_is_valid (st : Option ℚ) (s : Sample) :
    (relAssign st s).is_valid = s.is_valid := rfl

theorem relAssign_timestamp (st : Option ℚ) (s : Sample) :
    (relAssign st s).timestamp = s.timestamp := rfl

theorem idxMapFrom_getElem? (f : ℕ → Sample → Sample) (k : ℕ) (l : List Sample) (i : ℕ) :
    (idxMapFrom f k l)[i]? = (l[i]?).map (f (k + i)) := by
  induction l generalizing k i with
  | nil => simp [idxMapFrom]
  | cons x xs ih =>
    cases i with
    | zero => simp [idxMapFrom]
    | succ j =>
      have h : k + (j + 1) = (k + 1) + j := by omega
      simp only [idxMapFrom, List.getElem?_cons_succ, ih (k + 1) j, h]

theorem idxMapFrom_map_proj {γ : Type} (π : Sample → γ) (f : ℕ → Sample → Sample)
    (hf : ∀ i s, π (f i s) = π s) (k : ℕ) (l : List Sample) :
    (idxMapFrom f k l).map π = l.map π := by
  induction l generalizing k with
  | nil => rfl
  | cons x xs ih => simp [idxMapFrom, hf, ih]

theorem applyMask_getElem? (cond : Cols → ℕ → Bool) (rows : List Sample) (i : ℕ) :
    (applyMask cond rows)[i]? =
      (rows[i]?).map (fun s => if cond (colsOf rows) i then { s with is_valid := false } else s) := by
  simpa [applyMask] using idxMapFrom_getElem? _ 0 rows i

theorem map_proj_applyMask {γ : Type} (π : Sample → γ)
    (hπ : ∀ s, π { s with is_valid := false } = π s)
    (cond : Cols → ℕ → Bool) (rows : List Sample) :
    (applyMask cond rows).map π = rows.map π := by
  refine idxMapFrom_map_proj π _ (fun i s => ?_) 0 rows
  by_cases h : cond (colsOf rows) i <;> simp [h, hπ]

theorem map_proj_prepare {γ : Type} (π : Sample → γ)
    (hπ : ∀ st s, π (relAssign st s) = π s) (rows : List Sample) :
    (prepare_data rows).map π = rows.map π := by
  unfold prepare_data
  rw [List.map_map]
  exact List.map_congr_left fun s _ => hπ _ s

theorem colsOf_applyMask (cond : Cols → ℕ → Bool) (rows : List Sample) :
    colsOf (applyMask cond rows) = colsOf rows := by
  unfold colsOf
  rw [map_proj_applyMask (·.timestamp) (fun s => rfl),
    map_proj_applyMask (·.etype) (fun s => rfl),
    map_proj_applyMask (·.left) (fun s => rfl),
    map_proj_applyMask (·.right) (fun s => rfl)]

theorem colsOf_prepare (rows : List Sample) :
    colsOf (prepare_data rows) = colsOf rows := by
  unfold colsOf
  rw [map_proj_prepare (·.timestamp) (fun st s => rfl),
    map_proj_prepare (·.etype) (fun st s => rfl),
    map_proj_prepare (·.left) (fun st s => rfl),
    map_proj_prepare (·.right) (fun st s => rfl)]

theorem colsOf_runFilter (cond : Cols → ℕ → Bool) (rows : List Sample) :
    colsOf (runFilter cond rows) = colsOf rows := by
  unfold runFilter set_data
  rw [colsOf_prepare, colsOf_applyMask]

theorem prepare_valid_map (rows : List Sample) :
    (prepare_data rows).map (·.is_valid) = rows.map (·.is_valid) :=
  map_proj_prepare (·.is_valid) (fun st s => rfl) rows

/-- Validity after a full pass, row by row: the old flag conjoined
with the negated mask. -/
theorem runFilter_valid_at (cond : Cols → ℕ → Bool) (rows : List Sample) (i : ℕ) :
    ((runFilter cond rows)[i]?).map (·.is_valid) =
      (rows[i]?).map (fun s => s.is_valid && !(cond (colsOf rows) i)) := by
  unfold runFilter set_data
  have h1 : ((prepare_data (applyMask cond rows))[i]?).map (·.is_valid) =
      ((applyMask cond rows)[i]?).map (·.is_valid) := by
    have := congrArg (fun l => l[i]?) (prepare_valid_map (applyMask cond rows))
    simpa [List.getElem?_map] using this
  rw [h1, applyMask_getElem?]
  cases rows[i]? with
  | none => rfl
  | some s =>
    by_cases h : cond (colsOf rows) i <;> simp [h]

theorem set_invalid_of_invalid (s : Sample) (h : s.is_valid = false) :
    { s with is_valid := false } = s := by
  cases s
  simp_all

theorem filter_valid_map_prepare (rows : List Sample) :
    (prepare_data rows).filter (·.is_valid) =
      (rows.filter (·.is_valid)).map (relAssign (session_start rows)) := by
  unfold prepare_data
  rw [List.filter_map]
  rfl

theorem session_start_prepare (rows : List Sample) :
    session_start (prepare_data rows) = session_start rows := by
  unfold session_start
  rw [filter_valid_map_prepare, List.filterMap_map]
  have h1 : ((rows.filter (·.is_valid)).map (relAssign (session_start rows))).isEmpty =
      (rows.filter (·.is_valid)).isEmpty := by
    cases rows.filter (·.is_valid) <;> rfl
  rw [h1]
  have h2 : ((fun s : Sample => s.timestamp) ∘ relAssign (session_start rows)) =
      (fun s : Sample => s.timestamp) := funext fun s => rfl
  rw [h2]

theorem relAssign_relAssign (st : Option ℚ) (s : Sample) :
    relAssign st (relAssign st s) = relAssign st s := rfl

theorem prepare_idem (rows : List Sample) :
    prepare_data (prepare_data rows) = prepare_data rows := by
  conv_lhs => rw [prepare_data, session_start_prepare]
  show (prepare_data rows).map (relAssign (session_start rows)) = prepare_data rows
  unfold prepare_data
  rw [List.map_map]
  exact List.map_congr_left fun s _ => relAssign_relAssign _ s

/-- After a pass, re-evaluating the same mask and clearing again
changes nothing: the masked rows are already invalid. -/
theorem runFilter_fix (cond : Cols → ℕ → Bool) (rows : List Sample) :
    applyMask cond (runFilter cond rows) = runFilter cond rows := by
  apply List.ext
  intro i
  show (applyMask cond (runFilter cond rows)).get? i = (runFilter cond rows).get? i
  rw [List.get?_eq_getElem?, List.get?_eq_getElem?]
  rw [applyMask_getElem?, colsOf_runFilter]
  by_cases h : cond (colsOf rows) i
  · rw [h]
    have hv := runFilter_valid_at cond rows i
    cases ho : (runFilter cond rows)[i]? with
    | none => rfl
    | some s =>
      rw [ho] at hv
      cases hr : rows[i]? with
      | none => rw [hr] at hv; cases hv
      | some r =>
        rw [hr] at hv
        simp only [h, Bool.not_true, Bool.and_false, Option.map_some', Option.some.injEq] at hv
        rw [Option.map_some']
        exact congrArg some (set_invalid_of_invalid s hv)
  · have hb : cond (colsOf rows) i = false := by simpa using h
    rw [hb]
    cases (runFilter cond rows)[i]? <;> rfl

theorem runFilter_idem (cond : Cols → ℕ → Bool) (rows : List Sample) :
    runFilter cond (runFilter cond rows) = runFilter cond rows := by
  have h1 : runFilter cond (runFilter cond rows) = set_data (runFilter cond rows) := by
    conv_lhs => rw [runFilter, runFilter_fix]
  rw [h1]
  show prepare_data (prepare_data (applyMask cond rows)) = runFilter cond rows
  rw [prepare_idem]
  rfl

theorem runFilter_valid_mono (cond : Cols → ℕ → Bool) (rows : List Sample) (i : ℕ)
    (h : ((runFilter cond rows)[i]?).map (·.is_valid) = some true) :
    ((rows[i]?).map (·.is_valid)) = some true := by
  rw [runFilter_valid_at] at h
  cases hr : rows[i]? with
  | none => rw [hr] at h; cases h
  | some s =>
    rw [hr] at h
    simp only [Option.map_some', Option.some.injEq, Bool.and_eq_true] at h
    rw [Option.map_some', h.1]

theorem set_data_valid_at (rows : List Sample) (i : ℕ) :
    ((set_data rows)[i]?).map (·.is_valid) = (rows[i]?).map (·.is_valid) := by
  show ((prepare_data rows)[i]?).map (·.is_valid) = (rows[i]?).map (·.is_valid)
  have := congrArg (fun l => l[i]?) (prepare_valid_map rows)
  simpa [List.getElem?_map] using this

/-! ### The documented filter chain (main module passes) -/

/-- One pass of the documented chain of the main filter module,
together with the bare `set_data` recomputation. -/
inductive FilterStep where
  | onlyGaze
  | invalidPupils (minSize maxSize : ℚ)
  | missingData
  | byTimestamp (minT curT : ℚ)
  | spacing (minInterval : ℚ)
  | spacingCkpt (minInterval : ℚ)
  | constantPupil (maxSteps : ℕ) (tol : ℚ)
  | asyncPupil (tol : ℚ)
  | setDataStep

def FilterStep.run : FilterStep → List Sample → List Sample
  | .onlyGaze => filter_only_gaze
  | .invalidPupils a b => filter_invalid_pupils a b
  | .missingData => filter_missing_data
  | .byTimestamp a b => filter_by_timestamp a b
  | .spacing m => filter_unrealistic_event_spacing m
  | .spacingCkpt m => filter_unrealistic_event_spacing_ckpt m
  | .constantPupil n tol => filter_constant_pupil n tol
  | .asyncPupil tol => filter_async_pupil_size tol
  | .setDataStep => set_data

/-- Run a caller-chosen sequence of passes left to right. -/
def runChain (chain : List FilterStep) (rows : List Sample) : List Sample :=
  chain.foldl (fun r st => st.run r) rows

theorem step_valid_mono (st : FilterStep) (rows : List Sample) (i : ℕ)
    (h : ((st.run rows)[i]?).map (·.is_valid) = some true) :
    ((rows[i]?).map (·.is_valid)) = some true := by
  cases st
  case setDataStep => rwa [FilterStep.run, set_data_valid_at] at h
  all_goals exact runFilter_valid_mono _ _ _ h

/-! ### Claim theorems -/

/-- C1 (amended): for every sample table and every `min_interval`, the
spacing filter of the main filter module sets `is_valid` to `false`
exactly on the later row of every consecutive pair whose timestamp
difference is below `min_interval` — the earlier endpoint is left
unchanged — and changes no other row's validity; the checkpoint
variant of the filter invalidates both endpoints of each such pair.
Stated as a per-row characterization of the validity flag after the
pass. -/
theorem C1_spacing_validity (rows : List Sample) (minInterval : ℚ) (i : ℕ) :
    (((filter_unrealistic_event_spacing minInterval rows)[i]?).map (·.is_valid) =
      (rows[i]?).map (fun s => s.is_valid && !(spacingCond minInterval (colsOf rows) i))) ∧
    (((filter_unrealistic_event_spacing_ckpt minInterval rows)[i]?).map (·.is_valid) =
      (rows[i]?).map (fun s => s.is_valid && !(spacingCkptCond minInterval (colsOf rows) i))) :=
  ⟨runFilter_valid_at _ rows i, runFilter_valid_at _ rows i⟩

def c1rows : List Sample :=
  [⟨some 0, "gaze", some 3, some 3, true, none, none, none, none⟩,
   ⟨some (1/1000), "gaze", some 3, some 3, true, none, none, none, none⟩]

/-- C1 (counterexample): two rows 0.001 s apart — below the default
0.005 s interval — and after the main module's spacing filter the
earlier endpoint is still valid, so the claim that both endpoints of
the pair become invalid is false. -/
theorem C1_counterexample :
    ((filter_unrealistic_event_spacing (5/1000) c1rows).map (·.is_valid)) = [true, false] ∧
    ((filter_unrealistic_event_spacing (5/1000) c1rows).map (·.is_valid)) ≠ [false, false] ∧
    colDiff (colsOf c1rows).ts 1 = some (1/1000) ∧ (1/1000 : ℚ) < 5/1000 := by
  with_unfolding_all decide

/-- C10: `_prepare_data` resets `relative_timestamp` on every row
before filling it for currently-valid rows only: whatever value the
input carried, an invalid row ends with an undefined
`relative_timestamp` and a valid row ends with the freshly computed
`timestamp − session_start`. -/
theorem C10_reset_then_fill (rows : List Sample) (i : ℕ) :
    ((prepare_data rows)[i]?).map (fun s => (s.is_valid, s.relative_timestamp)) =
      (rows[i]?).map (fun s =>
        (s.is_valid, if s.is_valid then optSub s.timestamp (session_start rows) else none)) := by
  unfold prepare_data
  rw [List.getElem?_map]
  cases rows[i]? <;> rfl

/-- C4: across any sequence of passes of the documented chain
(including bare `set_data` recomputations), a row's `is_valid` flag
only ever transitions from true to false: if a row is valid after the
chain, it was valid before. -/
theorem C4_validity_monotonic (chain : List FilterStep) (rows : List Sample) (i : ℕ)
    (h : ((runChain chain rows)[i]?).map (·.is_valid) = some true) :
    ((rows[i]?).map (·.is_valid)) = some true := by
  induction chain generalizing rows with
  | nil => exact h
  | cons st ch ih => exact step_valid_mono st rows i (ih (st.run rows) h)

def c4rows : List Sample :=
  [⟨some 10, "gaze", some 3, some 3, true, none, none, none, none⟩]

theorem C4_witness :
    (((runChain [FilterStep.onlyGaze, FilterStep.spacing (5/1000), FilterStep.setDataStep]
        c4rows)[0]?).map (·.is_valid) = some true) ∧
    ((c4rows[0]?).map (·.is_valid)) = some true :=
  ⟨by with_unfolding_all decide,
   C4_validity_monotonic [FilterStep.onlyGaze, FilterStep.spacing (5/1000), FilterStep.setDataStep]
     c4rows 0 (by with_unfolding_all decide)⟩

/-- C7 (amended): every pass of the main filter module — whose mask
depends only on the raw columns — is idempotent: applying it twice
yields the very same table (hence the same validity partition) as
applying it once.  The speed filter of the checkpoint module, which
walks the currently-valid subsequence, is not idempotent (see the
counterexample). -/
theorem C7_single_pass_idempotent :
    (∀ rows : List Sample,
        filter_only_gaze (filter_only_gaze rows) = filter_only_gaze rows) ∧
    (∀ (a b : ℚ) (rows : List Sample),
        filter_invalid_pupils a b (filter_invalid_pupils a b rows) = filter_invalid_pupils a b rows) ∧
    (∀ rows : List Sample,
        filter_missing_data (filter_missing_data rows) = filter_missing_data rows) ∧
    (∀ (a b : ℚ) (rows : List Sample),
        filter_by_timestamp a b (filter_by_timestamp a b rows) = filter_by_timestamp a b rows) ∧
    (∀ (m : ℚ) (rows : List Sample),
        filter_unrealistic_event_spacing m (filter_unrealistic_event_spacing m rows) =
          filter_unrealistic_event_spacing m rows) ∧
    (∀ (m : ℚ) (rows : List Sample),
        filter_unrealistic_event_spacing_ckpt m (filter_unrealistic_event_spacing_ckpt m rows) =
          filter_unrealistic_event_spacing_ckpt m rows) ∧
    (∀ (n : ℕ) (tol : ℚ) (rows : List Sample),
        filter_constant_pupil n tol (filter_constant_pupil n tol rows) =
          filter_constant_pupil n tol rows) ∧
    (∀ (tol : ℚ) (rows : List Sample),
        filter_async_pupil_size tol (filter_async_pupil_size tol rows) =
          filter_async_pupil_size tol rows) :=
  ⟨fun rows => runFilter_idem _ rows,
   fun _ _ rows => runFilter_idem _ rows,
   fun rows => runFilter_idem _ rows,
   fun _ _ rows => runFilter_idem _ rows,
   fun _ rows => runFilter_idem _ rows,
   fun _ rows => runFilter_idem _ rows,
   fun _ _ rows => runFilter_idem _ rows,
   fun _ rows => runFilter_idem _ rows⟩

/-- The timestamps of the currently-valid rows. -/
def validTs (rows : List Sample) : List ℚ :=
  (rows.filter (·.is_valid)).filterMap (·.timestamp)

/-- C5: after `_prepare_data` (hence after construction and after
every `set_data`), every valid row's `relative_timestamp` equals its
`timestamp` minus `session_start`, where `session_start` is the
minimum timestamp among currently-valid rows; and when zero rows are
valid, `session_start` and all `relative_timestamp` values are
undefined while the table is still produced (the function is total —
no failure). -/
theorem C5_recompute_consistency (rows : List Sample)
    (hts : ∀ s ∈ rows, s.is_valid = true → s.timestamp.isSome) :
    (∀ s ∈ prepare_data rows, s.is_valid = true →
        ∃ t m, s.timestamp = some t ∧ (validTs rows).min? = some m ∧
          session_start rows = some m ∧ s.relative_timestamp = some (t - m)) ∧
    ((rows.filter (·.is_valid)).isEmpty = true →
        session_start rows = none ∧
        ∀ s ∈ prepare_data rows, s.relative_timestamp = none) := by
  constructor
  · intro s hs hv
    obtain ⟨s₀, hs₀, rfl⟩ := List.mem_map.mp hs
    rw [relAssign_is_valid] at hv
    obtain ⟨t, ht⟩ := Option.isSome_iff_exists.mp (hts s₀ hs₀ hv)
    have hmem : s₀ ∈ rows.filter (·.is_valid) := List.mem_filter.mpr ⟨hs₀, by simp [hv]⟩
    have htv : t ∈ validTs rows := List.mem_filterMap.mpr ⟨s₀, hmem, ht⟩
    have hne : validTs rows ≠ [] := fun h => by rw [h] at htv; cases htv
    have hm' : ((validTs rows).min?).isSome = true := by
      rcases h : (validTs rows).min? with _ | m
      · exact absurd (List.min?_eq_none_iff.mp h) hne
      · rfl
    obtain ⟨m, hm⟩ := Option.isSome_iff_exists.mp hm'
    have hemp : (rows.filter (·.is_valid)).isEmpty = false := by
      cases h : rows.filter (·.is_valid) with
      | nil => rw [h] at hmem; cases hmem
      | cons a l => rfl
    have hss : session_start rows = some m := by
      unfold session_start
      rw [hemp]
      simpa [validTs] using hm
    refine ⟨t, m, ht, hm, hss, ?_⟩
    show (relAssign (session_start rows) s₀).relative_timestamp = some (t - m)
    unfold relAssign
    simp only [hv, if_true, ht, hss]
    rfl
  · intro he
    have hss : session_start rows = none := by
      unfold session_start
      rw [he]
      rfl
    refine ⟨hss, fun s hs => ?_⟩
    obtain ⟨s₀, hs₀, rfl⟩ := List.mem_map.mp hs
    have hv : s₀.is_valid = false := by
      rcases h : s₀.is_valid with _ | _
      · rfl
      · exfalso
        have hmem : s₀ ∈ rows.filter (·.is_valid) := List.mem_filter.mpr ⟨hs₀, by simp [h]⟩
        rw [List.isEmpty_iff.mp he] at hmem
        cases hmem
    show (relAssign (session_start rows) s₀).relative_timestamp = none
    unfold relAssign
    simp [hv]

def c5rows : List Sample :=
  [⟨some 20, "gaze", some 3, some 3, true, none, none, none, none⟩,
   ⟨some 10, "gaze", some 3, some 3, true, none, none, none, none⟩,
   ⟨some 5, "gaze", some 3, some 3, false, none, none, none, none⟩]

theorem C5_witness :
    (∀ s ∈ c5rows, s.is_valid = true → s.timestamp.isSome) ∧
    ((∀ s ∈ prepare_data c5rows, s.is_valid = true →
        ∃ t m, s.timestamp = some t ∧ (validTs c5rows).min? = some m ∧
          session_start c5rows = some m ∧ s.relative_timestamp = some (t - m)) ∧
     ((c5rows.filter (·.is_valid)).isEmpty = true →
        session_start c5rows = none ∧
        ∀ s ∈ prepare_data c5rows, s.relative_timestamp = none)) :=
  ⟨by with_unfolding_all decide,
   C5_recompute_consistency c5rows (by with_unfolding_all decide)⟩

def c2rows : List Sample :=
  [⟨some 100, "gaze", none, none, true, some 100, none, none, some 4⟩,
   ⟨some 110, "gaze", none, none, true, some 110, none, none, some 6⟩]

def c2ranges : TimeRanges :=
  [("Baseline", (0, 30)), ("Positive", (30, 60)), ("Neutral_2", (60, 90)), ("Negative", (90, 120))]

/-- C2: `compute_negative_mean_ratio` reads the Positive window.  On a
cleaned table whose valid rows lie only in the Negative window
[90, 120] (smoothed values 4 and 6, baseline mean 2), the function
raises "No valid data in negative [30, 60]" — the Positive bounds —
while the claimed Negative-window mean ratio is (4+6)/2 / 2 = 5/2. -/
theorem C2_mean_ratio_uses_positive_window :
    compute_negative_mean_ratio c2rows c2ranges 2 = .error (.emptySeg "negative" 30 60) ∧
    negative_mean_ratio_spec c2rows c2ranges 2 = some (5/2) := by
  with_unfolding_all decide

def c3rows : List Sample :=
  [⟨some 100, "gaze", none, none, true, some 100, none, none, some 5⟩]

def c3ranges : TimeRanges :=
  [("Baseline", (0, 30)), ("Positive", (30, 60)), ("Neutral_2", (60, 90)), ("Negative", (90, 120))]

/-- C3: `compute_negative_rise_speed` looks up the lowercase key
`'negative'`.  On a phase map containing `'Negative' ↦ [90, 120]` and
a table with a valid row inside that window (relative time 100,
smoothed value 5, baseline mean 2), the function raises `KeyError`
instead of succeeding, while the claimed result is
(5 − 2) / (100 − 90) = 3/10. -/
theorem C3_rise_speed_lowercase_lookup :
    compute_negative_rise_speed c3rows c3ranges 2 = .error (.keyErr "negative") ∧
    negative_rise_speed_spec c3rows c3ranges 2 = some (3/10) := by
  with_unfolding_all decide

def c6rows : List Sample :=
  [⟨some 60, "gaze", none, none, true, some 60, none, none, some 5⟩]

def c6ranges : TimeRanges :=
  [("Baseline", (0, 30)), ("Positive", (30, 60))]

/-- C6: when the peak row's time coincides with the phase end (single
valid row at relative time 60 in Positive [30, 60]), the fall-speed
denominator `t_end − t_peak` is 0 and `compute_positive_fall_speed`
still returns a value (`Except.ok`) — the source divides with no
check, so no `DegenerateIntervalError` (or any error) is surfaced; in
Python the numpy division silently yields NaN/inf. -/
theorem C6_fall_speed_zero_denominator :
    positive_fall_parts c6rows c6ranges = .ok (some 0, 0) ∧
    compute_positive_fall_speed c6rows c6ranges 3 = .ok (some 0) := by
  with_unfolding_all decide

def c8rows : List Sample :=
  [⟨some 0, "gaze", some 1, some 1, true, none, none, none, none⟩,
   ⟨some (1/10), "gaze", some 2, some 2, true, none, none, none, none⟩,
   ⟨some (2/10), "gaze", some 3, some 3, true, none, none, none, none⟩]

/-- C8: on a freshly constructed table of three valid rows 0.1 s apart
with average diameters 1, 2, 3, the checkpoint `_prepare_data` leaves
`std_pupildiameter` undefined on every row — its window is evaluated
on a slice taken before `relative_timestamp`/`avg_pupildiameter` were
computed, so every window is empty — while the spec's windowed
statistic on the recomputed table is defined (squared value 1 at the
middle row: the sample variance of {1, 2, 3}). -/
theorem C8_std_stale_slice :
    ((prepare_data_ckpt c8rows).map (·.std_pupildiameter)) = [none, none, none] ∧
    std_window_spec (prepare_data_ckpt c8rows) 1 = some 1 ∧
    ((prepare_data_ckpt c8rows).map (·.is_valid)) = [true, true, true] := by
  with_unfolding_all decide

def c7rows : List Sample :=
  [⟨some 0, "gaze", some 0, some 0, true, some 0, some 0, none, none⟩,
   ⟨some 1, "gaze", some 5, some 5, true, some 1, some 5, none, none⟩,
   ⟨some (1001/1000), "gaze", some 105, some 105, true, some (1001/1000), some 105, none, none⟩,
   ⟨some (2001/1000), "gaze", some 110, some 110, true, some (2001/1000), some 110, none, none⟩]

/-- C7 (counterexample): the speed filter is not idempotent.  On the
table with relative times 0, 1, 1.001, 2.001 and average diameters
0, 5, 105, 110 (max speed 5), the first application invalidates only
the middle pair (speed 100/0.001), leaving rows 0 and 3 valid; the
second application then sees those two rows as valid neighbours
(speed 110/2.001 ≈ 55 > 5) and invalidates them too, so the validity
partition after two applications differs from the partition after
one. -/
theorem C7_counterexample :
    ((filter_pupil_speed 5 c7rows).map (·.is_valid)) = [true, false, false, true] ∧
    ((filter_pupil_speed 5 (filter_pupil_speed 5 c7rows)).map (·.is_valid)) =
      [false, false, false, false] ∧
    ((filter_pupil_speed 5 (filter_pupil_speed 5 c7rows)).map (·.is_valid)) ≠
      ((filter_pupil_speed 5 c7rows).map (·.is_valid)) := by
  with_unfolding_all decide

def c9rec : CalibrationData := ⟨7, 1, 2, 3, 4, 5, 6, 7, 8, 9⟩

/-- C9 (counterexample): the serialized record does not contain
exactly the nine named scalar fields — it also contains `user_id`,
which is not one of them (ten keys in total). -/
theorem C9_counterexample :
    ((to_dict c9rec).map Prod.fst).length = 10 ∧
    "user_id" ∈ (to_dict c9rec).map Prod.fst ∧
    "user_id" ∉ nine_field_names := by
  with_unfolding_all decide

/-- C9 (amended): the Calibration Record serializes to a flat
key→value record whose keys are exactly `user_id` followed by the nine
named scalar fields, and `load` after `save` reproduces every field
exactly. -/
theorem C9_round_trip (c : CalibrationData) :
    ((to_dict c).map Prod.fst) = "user_id" :: nine_field_names ∧
    load (save c) = .ok c := by
  constructor
  · with_unfolding_all rfl
  · with_unfolding_all rfl
